import Mathlib

/-!
Shallow embedding of the Viewer Authenticity Engine from `src/index.js`
(twitch-viewbot-protection).  JavaScript numbers are modelled as exact
rationals (`ℚ`), timestamps in milliseconds as integers (`ℤ`).  The
mutable module-level variables of the script are collected into an
`EngineState` record; the async fetch/refresh calls are modelled by
oracle parameters giving the outcome of the corresponding network call,
and a thrown JS exception is modelled as an `Except.error` carrying the
(partially mutated) global state at the throw site.
-/

namespace Viewbot

/-- Error taxonomy used to label the outcomes the network oracles can
inject (credential refresh failure, HTTP 429 surfaced, other fetch
failure). -/
inductive FetchFailure
  | authError
  | rateLimitError
  | fetchError
  deriving DecidableEq, Repr

/-- Published stats object (`lastStats` in `src/index.js`).  The initial
object literal at line 85 only carries `raid_viewers`, `host_viewers`
and `spike_detected`; the remaining fields are absent until the first
polling cycle publishes, which is modelled with `Option`. -/
structure Stats where
  total_viewers : Option ℚ
  unique_chatters : Option ℕ
  organic_viewers : Option ℤ
  artificial_viewers : Option ℤ
  spike_detected : Bool
  raid_viewers : ℚ
  host_viewers : ℚ
  deriving DecidableEq, Repr

/-- Embedding of line 85: `let lastStats = { raid_viewers: 0,
host_viewers: 0, spike_detected: false }`. -/
def initialLastStats : Stats :=
  { total_viewers := none
    unique_chatters := none
    organic_viewers := none
    artificial_viewers := none
    spike_detected := false
    raid_viewers := 0
    host_viewers := 0 }

/-- Numeric configuration parsed from the environment (lines 35-40). -/
structure Config where
  threshold : ℚ
  viewersThreshold : ℚ
  cacheTTL : ℤ
  cacheTTLHighViewers : ℤ

/-- The mutable module-level state of `src/index.js` (lines 73-85):
credential, cached viewer count, chat accumulators, history arrays and
the last published stats object. -/
structure EngineState where
  accessToken : String
  tokenExpiry : ℤ
  viewers : ℚ
  cachedViewerCount : ℚ
  lastFetchedTime : ℤ
  cachedChatters : Finset String
  chatCountMap : String → ℕ
  viewerHistory : List ℚ
  chatterHistory : List ℚ
  lastStats : Stats

/-- Initial values of the module-level variables (lines 73-85); the
initial access token comes from the environment (`TWITCH_ACCESS_TOKEN`
or the empty string). -/
def initialEngineState (tok : String) : EngineState :=
  { accessToken := tok
    tokenExpiry := 0
    viewers := 0
    cachedViewerCount := 0
    lastFetchedTime := 0
    cachedChatters := ∅
    chatCountMap := fun _ => 0
    viewerHistory := []
    chatterHistory := []
    lastStats := initialLastStats }

/-! ### Rolling history (lines 147-154) -/

/-- Line 84: `const HISTORY_LENGTH = 10`. -/
def HISTORY_LENGTH : ℕ := 10

/-- Embedding of `history.push(v); if (history.length > HISTORY_LENGTH)
history.shift();` (lines 147-150), for one of the two parallel arrays. -/
def pushSample (h : List ℚ) (v : ℚ) : List ℚ :=
  let h2 := h ++ [v]
  if HISTORY_LENGTH < h2.length then h2.tail else h2

/-- History contents after pushing the samples `vs`, in order, starting
from the empty array. -/
def histAfter (vs : List ℚ) : List ℚ := vs.foldl pushSample []

/-- Embedding of `history.reduce((a,b) => a+b, 0) / history.length`
(lines 153-154). -/
def averageOf (h : List ℚ) : ℚ :=
  h.foldl (fun a b => a + b) 0 / (h.length : ℚ)

/-! ### Spike detection and classification (lines 157-167) -/

/-- Line 157: `const spike = viewers > avgViewers * 1.5`. -/
def spikeOf (viewers avgViewers : ℚ) : Bool :=
  decide (avgViewers * (1.5 : ℚ) < viewers)

/-- Line 161: `const dynamicThresh = Math.max(threshold,
Math.ceil(avgChatters * 1.2))`. -/
def dynamicThresh (threshold avgChatters : ℚ) : ℚ :=
  max threshold ((⌈avgChatters * (1.2 : ℚ)⌉ : ℤ) : ℚ)

/-- Lines 164-166: organic viewer estimate. -/
def organicOf (viewers chatterCount avgChatters : ℚ) (spike : Bool)
    (threshold : ℚ) : ℚ :=
  if spike then min viewers (avgChatters * dynamicThresh threshold avgChatters)
  else min viewers (chatterCount * dynamicThresh threshold avgChatters)

/-- Line 167: `const artificial = Math.max(0, viewers - organic)`. -/
def artificialOf (viewers chatterCount avgChatters : ℚ) (spike : Bool)
    (threshold : ℚ) : ℚ :=
  max 0 (viewers - organicOf viewers chatterCount avgChatters spike threshold)

/-! ### Credential refresh and viewer-count fetch (lines 118-138) -/

/-- Adaptive TTL choice of line 129: `const ttl = viewers >
viewersThreshold ? cacheTTLHighViewers : cacheTTL`, computed from the
previously published viewer count `s.viewers`. -/
def ttlOf (cfg : Config) (s : EngineState) : ℤ :=
  if s.viewers > cfg.viewersThreshold then cfg.cacheTTLHighViewers else cfg.cacheTTL

/-- Embedding of `refreshAccessToken` (lines 118-124).  The network
outcome of the POST to the credential issuer is the oracle
`refreshResult`, carrying the new token and `expires_in` (seconds) on
success.  A failure is a thrown exception: the state at the throw site
is returned unchanged inside the error. -/
def refreshAccessToken (now : ℤ) (refreshResult : Except FetchFailure (String × ℤ))
    (s : EngineState) : Except (FetchFailure × EngineState) EngineState :=
  match refreshResult with
  | .error e => .error (e, s)
  | .ok p => .ok { s with accessToken := p.1, tokenExpiry := now + p.2 * 1000 }

/-- Embedding of `fetchViewerCount` (lines 127-138).  The three
`Date.now()` reads of one call are modelled by the single instant
`now`; `fetchResult` is the outcome of the Helix GET, carrying
`data.data[0]?.viewer_count` (`none` when the stream entry is absent,
mapped to `0` by `|| 0`).  Any thrown exception aborts the function,
carrying the partially mutated state (a successful refresh followed by
a failed GET keeps the new credential). -/
def fetchViewerCount (cfg : Config) (now : ℤ)
    (refreshResult : Except FetchFailure (String × ℤ))
    (fetchResult : Except FetchFailure (Option ℚ))
    (s : EngineState) : Except (FetchFailure × EngineState) EngineState :=
  let step1 : Except (FetchFailure × EngineState) EngineState :=
    if now > s.tokenExpiry - 60000 then refreshAccessToken now refreshResult s
    else .ok s
  match step1 with
  | .error es => .error es
  | .ok s1 =>
    let step2 : Except (FetchFailure × EngineState) EngineState :=
      if now - s1.lastFetchedTime > ttlOf cfg s1 then
        match fetchResult with
        | .error e => .error (e, s1)
        | .ok v =>
          .ok { s1 with cachedViewerCount := v.getD 0, lastFetchedTime := now }
      else .ok s1
    match step2 with
    | .error es => .error es
    | .ok s2 => .ok { s2 with viewers := s2.cachedViewerCount }

/-! ### Chat listener (lines 101-107) and raid/host hooks (lines 110-115) -/

/-- Character-wise model of the JS `toLowerCase()` call applied to
usernames and blacklist entries (ASCII case folding). -/
def lowerStr (s : String) : String := String.mk (s.data.map Char.toLower)

/-- Character-wise model of the JS `trim()` call: strip leading and
trailing whitespace. -/
def trimStr (s : String) : String :=
  String.mk
    (((s.data.dropWhile Char.isWhitespace).reverse.dropWhile Char.isWhitespace).reverse)

/-- Line 42: `BOT_BLACKLIST.split(',').map(b => b.trim().toLowerCase())`,
taking the comma-split pieces as input. -/
def mkBlacklist (raw : List String) : List String :=
  raw.map fun b => lowerStr (trimStr b)

/-- Embedding of the `chat` handler (lines 101-107): lower-case the
username, drop it if blacklisted, otherwise add it to the unique-chatter
set and bump its message counter. -/
def recordChat (blacklist : List String) (s : EngineState) (username : String) :
    EngineState :=
  let uname := lowerStr username
  if uname ∈ blacklist then s
  else
    { s with cachedChatters := insert uname s.cachedChatters
             chatCountMap := fun u =>
               if u = uname then s.chatCountMap uname + 1 else s.chatCountMap u }

/-- A raid or host notification delivered by the chat transport
(lines 110-115). -/
inductive InfluxEvent
  | raided (n : ℚ)
  | hosted (n : ℚ)

/-- Embedding of the `raided`/`hosted` handlers (lines 110-115): each
overwrites its own sticky field of `lastStats`, touching nothing else. -/
def applyInflux (st : Stats) : InfluxEvent → Stats
  | .raided n => { st with raid_viewers := n }
  | .hosted n => { st with host_viewers := n }

/-- An event the process can observe before (or between) polling
cycles: a chat message or an influx notification. -/
inductive PreCycleEvent
  | chat (username : String)
  | influx (e : InfluxEvent)

/-- Effect of one pre-cycle event on the module state. -/
def applyPreCycleEvent (blacklist : List String) (s : EngineState) :
    PreCycleEvent → EngineState
  | .chat u => recordChat blacklist s u
  | .influx e => { s with lastStats := applyInflux s.lastStats e }

/-! ### The polling cycle (lines 142-190) -/

/-- Embedding of the `setInterval` callback (lines 142-190).  The
callback first awaits `fetchViewerCount`; a rejection there aborts the
whole cycle (there is no try/catch), leaving the global state as the
throw site left it — this is the `(s1, some e)` branch.  On success the
cycle reads the chatter count, pushes both histories, computes
averages, spike flag and classification, publishes `lastStats`
wholesale, and clears the chat accumulators.  (The Prometheus gauges,
the SQLite insert and the anomaly counter are external sinks and are
not part of the state.) -/
def runCycle (cfg : Config) (now : ℤ)
    (refreshResult : Except FetchFailure (String × ℤ))
    (fetchResult : Except FetchFailure (Option ℚ))
    (s : EngineState) : EngineState × Option FetchFailure :=
  match fetchViewerCount cfg now refreshResult fetchResult s with
  | .error (e, s1) => (s1, some e)
  | .ok s1 =>
    let chatterCount : ℕ := s1.cachedChatters.card
    let vh := pushSample s1.viewerHistory s1.viewers
    let ch := pushSample s1.chatterHistory (chatterCount : ℚ)
    let avgViewers := averageOf vh
    let avgChatters := averageOf ch
    let spike := spikeOf s1.viewers avgViewers
    let organic := organicOf s1.viewers (chatterCount : ℚ) avgChatters spike cfg.threshold
    let artificial := artificialOf s1.viewers (chatterCount : ℚ) avgChatters spike cfg.threshold
    let st : Stats :=
      { total_viewers := some s1.viewers
        unique_chatters := some chatterCount
        organic_viewers := some (round organic)
        artificial_viewers := some (round artificial)
        spike_detected := spike
        raid_viewers := s1.lastStats.raid_viewers
        host_viewers := s1.lastStats.host_viewers }
    ({ s1 with viewerHistory := vh
               chatterHistory := ch
               lastStats := st
               cachedChatters := ∅
               chatCountMap := fun _ => 0 }, none)

/-- The `/stats` endpoint (line 212): returns the most recently
published stats object. -/
def getSnapshot (s : EngineState) : Stats := s.lastStats

/-! ### The 429 retry interceptor (lines 88-94) -/

/-- Line 45-46: `HELIX_RATE_LIMIT_PER_MINUTE = 800`;
`minHelixInterval = Math.ceil(60000 / 800)`. -/
def minHelixInterval : ℤ := ⌈(60000 : ℚ) / 800⌉

/-- One scripted response of the external API to a single HTTP
request: a success payload, an HTTP 429, or any other failure. -/
inductive HelixResponse
  | ok (v : Option ℚ)
  | tooManyRequests
  | otherError
  deriving DecidableEq, Repr

/-- Embedding of the axios response interceptor (lines 88-94) run
against a scripted list of responses, one per issued request.  On a
429 the interceptor sleeps `minHelixInterval` ms and re-issues the
request with `axios(err.config)` — and that re-issued request passes
through the same interceptor again.  Any other error is re-thrown; a
success is returned.  The result is `(requests issued, total ms slept,
outcome)`, or `none` when the script is exhausted while still
retrying. -/
def axiosWithRetry : List HelixResponse → Option (ℕ × ℤ × Except FetchFailure (Option ℚ))
  | [] => none
  | HelixResponse.ok v :: _ => some (1, 0, Except.ok v)
  | HelixResponse.otherError :: _ => some (1, 0, Except.error FetchFailure.fetchError)
  | HelixResponse.tooManyRequests :: rest =>
    match axiosWithRetry rest with
    | none => none
    | some (n, t, r) => some (n + 1, t + minHelixInterval, r)

/-- Modelled from the spec (RateLimitedFetcher, 4.2): retry exactly
once per 429 after sleeping the minimum safe interval, return the
retried result as-is, and surface a second consecutive 429 as
`RateLimitError` with no further retry.  Stated here only to be
compared with the interceptor the code actually installs. -/
def specRateLimitedFetch : List HelixResponse → Option (ℕ × ℤ × Except FetchFailure (Option ℚ))
  | [] => none
  | HelixResponse.ok v :: _ => some (1, 0, Except.ok v)
  | HelixResponse.otherError :: _ => some (1, 0, Except.error FetchFailure.fetchError)
  | HelixResponse.tooManyRequests :: rest =>
    match rest with
    | [] => none
    | HelixResponse.ok v :: _ => some (2, minHelixInterval, Except.ok v)
    | HelixResponse.otherError :: _ =>
      some (2, minHelixInterval, Except.error FetchFailure.fetchError)
    | HelixResponse.tooManyRequests :: _ =>
      some (2, minHelixInterval, Except.error FetchFailure.rateLimitError)

/-! ### Shared concrete examples used by witnesses and counterexamples -/

/-- Example configuration matching the spec scenario values and the
defaults of lines 20-22: base threshold 2, viewersThreshold 5000,
cacheTTL 60000 ms, cacheTTLHighViewers 30000 ms. -/
def cfgEx : Config :=
  { threshold := 2, viewersThreshold := 5000, cacheTTL := 60000, cacheTTLHighViewers := 30000 }

/-- Example state with a fresh cache (last fetch 10 ms ago at now = 100)
but an expired credential (tokenExpiry = 0). -/
def sEx : EngineState :=
  { initialEngineState "old" with lastFetchedTime := 90, cachedViewerCount := 7 }

/-- The state `fetchViewerCount cfgEx 100 (ok ("newtok",3600)) (ok none) sEx`
evaluates to: credential refreshed, cache untouched, published value the
stale cached 7. -/
def sExAfter : EngineState :=
  { sEx with accessToken := "newtok", tokenExpiry := 100 + 3600 * 1000, viewers := 7 }

/-- The state left behind when, from the initial state at now = 100000,
the refresh succeeds with token t (lifetime 3600 s) and the Helix GET
then fails: only the credential fields have moved. -/
def s1Ex : EngineState :=
  { initialEngineState "" with accessToken := "t", tokenExpiry := 100000 + 3600 * 1000 }

end Viewbot

namespace Viewbot

/-! ## Theorems -/

/-- C3: for every input, `classify` returns
`organic = min(viewers, avgChatters * dynThresh)` when a spike is
detected and `organic = min(viewers, chatterCount * dynThresh)`
otherwise, with `dynThresh = max(baseThreshold, ceil(avgChatters * 1.2))`
and `artificial = max(0, viewers - organic)`; consequently
`organic ≤ viewers` always holds. -/
theorem C3_classify_formula (v c a th : ℚ) (sp : Bool) :
    dynamicThresh th a = max th ((⌈a * (1.2 : ℚ)⌉ : ℤ) : ℚ) ∧
    organicOf v c a sp th =
      (if sp then min v (a * dynamicThresh th a)
       else min v (c * dynamicThresh th a)) ∧
    artificialOf v c a sp th = max 0 (v - organicOf v c a sp th) ∧
    organicOf v c a sp th ≤ v := by
  refine ⟨rfl, rfl, rfl, ?_⟩
  unfold organicOf
  cases sp <;> simp [min_le_left]

/-- C7: `evaluate` reports a spike exactly when
`viewers > avgViewers * 1.5`; on the first sample (history of length 1,
whose average is the sample itself) the flag is false for any
nonnegative viewer count; and holding the average fixed the flag is
monotone in viewers, so once set it never flips back for the same
average. -/
theorem C7_spike_evaluate (v avg : ℚ) :
    (spikeOf v avg = true ↔ v > avg * (1.5 : ℚ)) ∧
    (0 ≤ v → spikeOf v (averageOf (histAfter [v])) = false) ∧
    (∀ v2 : ℚ, v ≤ v2 → spikeOf v avg = true → spikeOf v2 avg = true) := by
  refine ⟨?_, ?_, ?_⟩
  · simp [spikeOf]
  · intro hv
    have h1 : averageOf (histAfter [v]) = v := by
      simp [histAfter, pushSample, HISTORY_LENGTH, averageOf]
    rw [h1]
    simp only [spikeOf, decide_eq_false_iff_not, not_lt]
    nlinarith
  · intro v2 hle hsp
    simp only [spikeOf, decide_eq_true_eq] at hsp ⊢
    linarith

/-- C7 witness: with average 2, viewers 4 trips the spike flag; the
first-ever sample 1 does not; and raising viewers from 4 to 5 keeps the
flag set. -/
theorem C7_spike_evaluate_witness :
    spikeOf 4 2 = true ∧
    spikeOf 1 (averageOf (histAfter [1])) = false ∧
    spikeOf 5 2 = true :=
  ⟨(C7_spike_evaluate 4 2).1.mpr (by norm_num),
   (C7_spike_evaluate 1 2).2.1 (by norm_num),
   (C7_spike_evaluate 4 2).2.2 5 (by norm_num)
     ((C7_spike_evaluate 4 2).1.mpr (by norm_num))⟩

/-- C2 counterexample: on the response script 429, 429, success 5 the
installed interceptor issues a third request and returns the success
(3 requests, 150 ms slept in total), while the one-retry policy the claim
states would stop after 2 requests with RateLimitError. -/
theorem C2_counterexample :
    axiosWithRetry
        [HelixResponse.tooManyRequests, HelixResponse.tooManyRequests,
         HelixResponse.ok (some 5)] =
      some (3, 150, Except.ok (some 5)) ∧
    specRateLimitedFetch
        [HelixResponse.tooManyRequests, HelixResponse.tooManyRequests,
         HelixResponse.ok (some 5)] =
      some (2, 75, Except.error FetchFailure.rateLimitError) := by
  norm_num [axiosWithRetry, specRateLimitedFetch, minHelixInterval]

/-- C2 (amended): every 429 response makes the interceptor sleep
`minHelixInterval = ceil(60000/800) = 75` ms and re-issue the request —
and the re-issued request passes through the same interceptor, so `k`
consecutive 429s produce `k + 1` total requests and `k` sleeps with no
`RateLimitError` ever raised; the eventual non-429 outcome (success or
other error) is returned or propagated as-is. -/
theorem C2_unbounded_retry (k : ℕ) (v : Option ℚ) :
    minHelixInterval = 75 ∧
    axiosWithRetry
        (List.replicate k HelixResponse.tooManyRequests ++ [HelixResponse.ok v]) =
      some (k + 1, (k : ℤ) * minHelixInterval, Except.ok v) ∧
    axiosWithRetry
        (List.replicate k HelixResponse.tooManyRequests ++ [HelixResponse.otherError]) =
      some (k + 1, (k : ℤ) * minHelixInterval, Except.error FetchFailure.fetchError) := by
  refine ⟨by norm_num [minHelixInterval], ?_, ?_⟩ <;>
  · induction k with
    | zero => simp [axiosWithRetry]
    | succ n ih =>
      simp only [List.replicate_succ, List.cons_append, axiosWithRetry, List.append_eq, ih,
        Option.some.injEq, Prod.mk.injEq]
      exact ⟨trivial, by push_cast; ring, trivial⟩

/-- The four per-cycle snapshot fields stay absent (and the spike flag
false) across any single pre-cycle event: chat events never touch
`lastStats`, and the raid/host handlers only overwrite their own sticky
field. -/
lemma preCycleEvent_preserves_absent (bl : List String) (s : EngineState)
    (e : PreCycleEvent)
    (h : s.lastStats.total_viewers = none ∧ s.lastStats.unique_chatters = none ∧
      s.lastStats.organic_viewers = none ∧ s.lastStats.artificial_viewers = none ∧
      s.lastStats.spike_detected = false) :
    (applyPreCycleEvent bl s e).lastStats.total_viewers = none ∧
    (applyPreCycleEvent bl s e).lastStats.unique_chatters = none ∧
    (applyPreCycleEvent bl s e).lastStats.organic_viewers = none ∧
    (applyPreCycleEvent bl s e).lastStats.artificial_viewers = none ∧
    (applyPreCycleEvent bl s e).lastStats.spike_detected = false := by
  cases e with
  | chat u =>
    simp only [applyPreCycleEvent, recordChat]
    split
    · exact h
    · simpa using h
  | influx ev => cases ev <;> simpa [applyPreCycleEvent, applyInflux] using h

/-- Folding any list of pre-cycle events preserves absence of the four
per-cycle snapshot fields. -/
lemma preCycleEvents_preserve_absent (bl : List String) (events : List PreCycleEvent) :
    ∀ s : EngineState,
      (s.lastStats.total_viewers = none ∧ s.lastStats.unique_chatters = none ∧
        s.lastStats.organic_viewers = none ∧ s.lastStats.artificial_viewers = none ∧
        s.lastStats.spike_detected = false) →
      ((events.foldl (applyPreCycleEvent bl) s).lastStats.total_viewers = none ∧
        (events.foldl (applyPreCycleEvent bl) s).lastStats.unique_chatters = none ∧
        (events.foldl (applyPreCycleEvent bl) s).lastStats.organic_viewers = none ∧
        (events.foldl (applyPreCycleEvent bl) s).lastStats.artificial_viewers = none ∧
        (events.foldl (applyPreCycleEvent bl) s).lastStats.spike_detected = false) := by
  induction events with
  | nil => exact fun s h => h
  | cons e es ih =>
    intro s h
    exact ih (applyPreCycleEvent bl s e) (preCycleEvent_preserves_absent bl s e h)

/-- C10 counterexample: a raid notification delivered before any
polling cycle has published overwrites the sticky `raid_viewers` field,
so `/stats` answers `raid_viewers = 500`, not `0` as the claim states
for the whole pre-first-cycle period. -/
theorem C10_counterexample :
    getSnapshot
        (applyPreCycleEvent [] (initialEngineState "")
          (PreCycleEvent.influx (InfluxEvent.raided 500))) =
      { initialLastStats with raid_viewers := 500 } ∧
    ({ initialLastStats with raid_viewers := 500 }).raid_viewers ≠ 0 := by
  constructor
  · rfl
  · norm_num

/-- C10 (amended): until the first evaluation cycle publishes a
snapshot — that is, after any sequence of chat and raid/host events
starting from the initial state — `getSnapshot()` still lacks
`total_viewers`, `unique_chatters`, `organic_viewers` and
`artificial_viewers` (absent rather than zero) and reports
`spike_detected = false`; `raid_viewers` and `host_viewers` start at 0
but a raid/host event before the first cycle overwrites them. -/
theorem C10_pre_cycle_snapshot (bl : List String) (tok : String)
    (events : List PreCycleEvent) :
    (getSnapshot (events.foldl (applyPreCycleEvent bl) (initialEngineState tok))).total_viewers
        = none ∧
    (getSnapshot (events.foldl (applyPreCycleEvent bl) (initialEngineState tok))).unique_chatters
        = none ∧
    (getSnapshot (events.foldl (applyPreCycleEvent bl) (initialEngineState tok))).organic_viewers
        = none ∧
    (getSnapshot (events.foldl (applyPreCycleEvent bl) (initialEngineState tok))).artificial_viewers
        = none ∧
    (getSnapshot (events.foldl (applyPreCycleEvent bl) (initialEngineState tok))).spike_detected
        = false ∧
    getSnapshot (initialEngineState tok) = initialLastStats ∧
    initialLastStats.raid_viewers = 0 ∧ initialLastStats.host_viewers = 0 := by
  have h := preCycleEvents_preserve_absent bl events (initialEngineState tok)
    (by simp [initialEngineState, initialLastStats])
  exact ⟨h.1, h.2.1, h.2.2.1, h.2.2.2.1, h.2.2.2.2, rfl, rfl, rfl⟩

/-- One push step preserves the last-min(N,10) characterisation of the
history array. -/
lemma pushSample_drop (l : List ℚ) (a : ℚ) :
    pushSample (l.drop (l.length - HISTORY_LENGTH)) a =
      (l ++ [a]).drop ((l ++ [a]).length - HISTORY_LENGTH) := by
  have hHL : HISTORY_LENGTH = 10 := rfl
  by_cases h : l.length < HISTORY_LENGTH
  · have h0 : l.length - HISTORY_LENGTH = 0 := by omega
    have h1 : (l ++ [a]).length - HISTORY_LENGTH = 0 := by
      simp only [List.length_append, List.length_singleton]; omega
    have hc : ¬ HISTORY_LENGTH < (l ++ [a]).length := by
      simp only [List.length_append, List.length_singleton]; omega
    rw [h0, h1, List.drop_zero, List.drop_zero]
    simp only [pushSample]
    rw [if_neg hc]
  · push_neg at h
    have hd : (l.drop (l.length - HISTORY_LENGTH)).length = HISTORY_LENGTH := by
      rw [List.length_drop]; omega
    have hcond : HISTORY_LENGTH < (l.drop (l.length - HISTORY_LENGTH) ++ [a]).length := by
      simp only [List.length_append, List.length_singleton, hd]; omega
    simp only [pushSample]
    rw [if_pos hcond]
    rw [← List.drop_one,
      List.drop_append_of_le_length (by omega : 1 ≤ (l.drop (l.length - HISTORY_LENGTH)).length),
      List.drop_drop]
    have h2 : (l ++ [a]).length - HISTORY_LENGTH = (l.length - HISTORY_LENGTH) + 1 := by
      simp only [List.length_append, List.length_singleton]; omega
    rw [h2,
      List.drop_append_of_le_length (by omega : l.length - HISTORY_LENGTH + 1 ≤ l.length)]

/-- The history array built by pushing `vs` in order holds exactly the
last `min(N, 10)` samples, in arrival order. -/
lemma histAfter_eq_drop (vs : List ℚ) :
    histAfter vs = vs.drop (vs.length - HISTORY_LENGTH) := by
  induction vs using List.reverseRecOn with
  | nil => rfl
  | append_singleton l a ih =>
    unfold histAfter at ih ⊢
    rw [List.foldl_append]
    simp only [List.foldl_cons, List.foldl_nil]
    rw [ih]
    exact pushSample_drop l a

/-- C6: after any sequence of `N` pushes the history holds exactly the
last `min(N, 10)` samples in arrival order (oldest dropped FIFO), and
`averages()` is the arithmetic mean — sum divided by count — over
exactly those currently held samples, with no warm-up special case. -/
theorem C6_rolling_statistics (vs : List ℚ) :
    histAfter vs = vs.drop (vs.length - HISTORY_LENGTH) ∧
    (histAfter vs).length = min vs.length HISTORY_LENGTH ∧
    averageOf (histAfter vs) =
      (vs.drop (vs.length - HISTORY_LENGTH)).foldl (fun a b => a + b) 0 /
        ((min vs.length HISTORY_LENGTH : ℕ) : ℚ) := by
  have h := histAfter_eq_drop vs
  have hlen : (histAfter vs).length = min vs.length HISTORY_LENGTH := by
    rw [h, List.length_drop]; omega
  refine ⟨h, hlen, ?_⟩
  unfold averageOf
  rw [h, List.length_drop]
  have : vs.length - (vs.length - HISTORY_LENGTH) = min vs.length HISTORY_LENGTH := by omega
  rw [this]

/-- A chat event whose lower-cased username is on the blacklist leaves
the tracker state untouched. -/
lemma recordChat_blacklisted (bl : List String) (s : EngineState) (u : String)
    (h : lowerStr u ∈ bl) : recordChat bl s u = s := by
  simp [recordChat, h]

/-- Folding chat events is the same as folding only the non-blacklisted
ones: blacklisted events contribute nothing. -/
lemma recordChat_fold_filter (bl : List String) (events : List String) :
    ∀ s : EngineState,
      events.foldl (recordChat bl) s =
        (events.filter fun e => decide (lowerStr e ∉ bl)).foldl (recordChat bl) s := by
  induction events with
  | nil => intro s; rfl
  | cons e es ih =>
    intro s
    by_cases he : lowerStr e ∈ bl
    · rw [List.foldl_cons, List.filter_cons, recordChat_blacklisted bl s e he, if_neg]
      · exact ih s
      · simp [he]
    · rw [List.foldl_cons, List.filter_cons, if_pos]
      · rw [List.foldl_cons]
        exact ih (recordChat bl s e)
      · simp [he]

/-- A blacklist entry never enters the unique-chatter set, whatever chat
events arrive. -/
lemma recordChat_fold_not_mem (bl : List String) (events : List String) :
    ∀ s : EngineState, ∀ b ∈ bl, b ∉ s.cachedChatters →
      b ∉ (events.foldl (recordChat bl) s).cachedChatters := by
  induction events with
  | nil => exact fun s b _ hb => hb
  | cons e es ih =>
    intro s b hbl hb
    refine ih (recordChat bl s e) b hbl ?_
    unfold recordChat
    by_cases he : lowerStr e ∈ bl
    · simpa [he] using hb
    · simp only [he, if_false]
      simp only [Finset.mem_insert, not_or]
      exact ⟨fun hEq => he (hEq ▸ hbl), hb⟩

/-- C8: a chat event whose lower-cased identifier matches a blacklist
entry (the blacklist itself being the trimmed, lower-cased split of the
configuration string) is dropped by the chat handler — the state is
unchanged, folding any event sequence equals folding only the
non-blacklisted events, and a blacklisted identifier never enters the
unique-chatter set that `snapshotAndReset` counts. -/
theorem C8_blacklist_filter (raw : List String) (events : List String) (s : EngineState) :
    (∀ u : String, lowerStr u ∈ mkBlacklist raw →
        recordChat (mkBlacklist raw) s u = s) ∧
    events.foldl (recordChat (mkBlacklist raw)) s =
      (events.filter fun e => decide (lowerStr e ∉ mkBlacklist raw)).foldl
        (recordChat (mkBlacklist raw)) s ∧
    (∀ b ∈ mkBlacklist raw, b ∉ s.cachedChatters →
        b ∉ (events.foldl (recordChat (mkBlacklist raw)) s).cachedChatters) :=
  ⟨fun u hu => recordChat_blacklisted (mkBlacklist raw) s u hu,
   recordChat_fold_filter (mkBlacklist raw) events s,
   fun b hb hbs => recordChat_fold_not_mem (mkBlacklist raw) events s b hb hbs⟩

/-- C8 witness: with configured blacklist entry Bot1, the event BOT1 is
dropped outright and bot1 never shows up in the unique-chatter set even
after a mixed event sequence. -/
theorem C8_blacklist_filter_witness :
    recordChat (mkBlacklist ["Bot1"]) (initialEngineState "") "BOT1" =
      initialEngineState "" ∧
    "bot1" ∉
      ((["BOT1", "alice"].foldl (recordChat (mkBlacklist ["Bot1"]))
        (initialEngineState "")).cachedChatters) :=
  ⟨(C8_blacklist_filter ["Bot1"] [] (initialEngineState "")).1 "BOT1" (by decide),
   (C8_blacklist_filter ["Bot1"] ["BOT1", "alice"] (initialEngineState "")).2.2 "bot1"
     (by decide) (by simp [initialEngineState])⟩

/-- Refreshing the credential does not change the fields the TTL choice
reads (previous published viewer count), so the TTL is unaffected. -/
lemma ttlOf_credential_update (cfg : Config) (s : EngineState) (t : String) (e : ℤ) :
    ttlOf cfg { s with accessToken := t, tokenExpiry := e } = ttlOf cfg s := rfl

/-- Normal form of `fetchViewerCount`: explicit case split on the
token-expiry check, the refresh outcome, the TTL comparison and the
fetch outcome. -/
lemma fetchViewerCount_eq (cfg : Config) (now : ℤ)
    (rr : Except FetchFailure (String × ℤ)) (fr : Except FetchFailure (Option ℚ))
    (s : EngineState) :
    fetchViewerCount cfg now rr fr s =
      (if now > s.tokenExpiry - 60000 then
        match rr with
        | .error e => .error (e, s)
        | .ok p =>
          if now - s.lastFetchedTime > ttlOf cfg s then
            match fr with
            | .error e =>
              .error (e, { s with accessToken := p.1, tokenExpiry := now + p.2 * 1000 })
            | .ok v => .ok { s with accessToken := p.1, tokenExpiry := now + p.2 * 1000,
                                    cachedViewerCount := v.getD 0, lastFetchedTime := now,
                                    viewers := v.getD 0 }
          else .ok { s with accessToken := p.1, tokenExpiry := now + p.2 * 1000,
                            viewers := s.cachedViewerCount }
      else
        if now - s.lastFetchedTime > ttlOf cfg s then
          match fr with
          | .error e => .error (e, s)
          | .ok v => .ok { s with cachedViewerCount := v.getD 0, lastFetchedTime := now,
                                  viewers := v.getD 0 }
        else .ok { s with viewers := s.cachedViewerCount }) := by
  unfold fetchViewerCount refreshAccessToken
  by_cases htok : now > s.tokenExpiry - 60000
  · cases rr with
    | error e => simp [htok]
    | ok p =>
      by_cases httl : ttlOf cfg s < now - s.lastFetchedTime
      · cases fr with
        | error e => simp [htok, httl, ttlOf_credential_update]
        | ok v => simp [htok, httl, ttlOf_credential_update]
      · simp [htok, httl, ttlOf_credential_update]
  · by_cases httl : ttlOf cfg s < now - s.lastFetchedTime
    · cases fr with
      | error e => simp [htok, httl]
      | ok v => simp [htok, httl]
    · simp [htok, httl]

/-- When the cache is still fresh, a successful `fetchViewerCount` call
leaves the cached value and fetch time unchanged and republishes the
cached value. -/
lemma fetchViewerCount_fresh (cfg : Config) (now : ℤ)
    (rr : Except FetchFailure (String × ℤ)) (fr : Except FetchFailure (Option ℚ))
    (s : EngineState) (h : ¬ now - s.lastFetchedTime > ttlOf cfg s) :
    ∀ s1, fetchViewerCount cfg now rr fr s = Except.ok s1 →
      s1.cachedViewerCount = s.cachedViewerCount ∧
      s1.lastFetchedTime = s.lastFetchedTime ∧
      s1.viewers = s.cachedViewerCount := by
  intro s1 h1
  rw [fetchViewerCount_eq] at h1
  by_cases htok : now > s.tokenExpiry - 60000
  · cases rr with
    | error e => simp [htok] at h1
    | ok p =>
      simp only [htok, if_true, if_neg h, Except.ok.injEq] at h1
      subst h1
      exact ⟨rfl, rfl, rfl⟩
  · simp only [htok, if_false, if_neg h, Except.ok.injEq] at h1
    subst h1
    exact ⟨rfl, rfl, rfl⟩

/-- When the cache has expired and the external fetch succeeds with
payload `v`, the call stores `v.getD 0`, stamps the fetch time and
publishes the fresh value. -/
lemma fetchViewerCount_stale (cfg : Config) (now : ℤ)
    (rr : Except FetchFailure (String × ℤ)) (v : Option ℚ)
    (s : EngineState) (h : now - s.lastFetchedTime > ttlOf cfg s) :
    ∀ s1, fetchViewerCount cfg now rr (Except.ok v) s = Except.ok s1 →
      s1.cachedViewerCount = v.getD 0 ∧ s1.lastFetchedTime = now ∧
      s1.viewers = v.getD 0 := by
  intro s1 h1
  rw [fetchViewerCount_eq] at h1
  by_cases htok : now > s.tokenExpiry - 60000
  · cases rr with
    | error e => simp [htok] at h1
    | ok p =>
      simp only [htok, if_true, if_pos h, Except.ok.injEq] at h1
      subst h1
      exact ⟨rfl, rfl, rfl⟩
  · simp only [htok, if_false, if_pos h, Except.ok.injEq] at h1
    subst h1
    exact ⟨rfl, rfl, rfl⟩

/-- Within the TTL window the outcome of `fetchViewerCount` does not
depend on the would-be fetched value at all. -/
lemma fetchViewerCount_indep (cfg : Config) (now : ℤ)
    (rr : Except FetchFailure (String × ℤ)) (fr fr2 : Except FetchFailure (Option ℚ))
    (s : EngineState) (h : ¬ now - s.lastFetchedTime > ttlOf cfg s) :
    fetchViewerCount cfg now rr fr s = fetchViewerCount cfg now rr fr2 s := by
  rw [fetchViewerCount_eq, fetchViewerCount_eq]
  simp only [if_neg h]

/-- When the token is not close to expiry, a successful call leaves the
credential untouched. -/
lemma fetchViewerCount_credkeep (cfg : Config) (now : ℤ)
    (rr : Except FetchFailure (String × ℤ)) (fr : Except FetchFailure (Option ℚ))
    (s : EngineState) (htok : ¬ now > s.tokenExpiry - 60000) :
    ∀ s1, fetchViewerCount cfg now rr fr s = Except.ok s1 →
      s1.accessToken = s.accessToken ∧ s1.tokenExpiry = s.tokenExpiry := by
  intro s1 h1
  rw [fetchViewerCount_eq, if_neg htok] at h1
  by_cases httl : now - s.lastFetchedTime > ttlOf cfg s
  · rw [if_pos httl] at h1
    cases fr with
    | error e => simp at h1
    | ok v =>
      simp only [Except.ok.injEq] at h1
      subst h1
      exact ⟨rfl, rfl⟩
  · rw [if_neg httl] at h1
    simp only [Except.ok.injEq] at h1
    subst h1
    exact ⟨rfl, rfl⟩

/-- When the token is within 60 s of expiry, a successful call installs
the refreshed credential — whether or not the cache was fresh. -/
lemma fetchViewerCount_refreshes (cfg : Config) (now : ℤ) (t : String) (e : ℤ)
    (fr : Except FetchFailure (Option ℚ))
    (s : EngineState) (htok : now > s.tokenExpiry - 60000) :
    ∀ s1, fetchViewerCount cfg now (Except.ok (t, e)) fr s = Except.ok s1 →
      s1.accessToken = t ∧ s1.tokenExpiry = now + e * 1000 := by
  intro s1 h1
  rw [fetchViewerCount_eq, if_pos htok] at h1
  by_cases httl : now - s.lastFetchedTime > ttlOf cfg s
  · cases fr with
    | error e2 => simp [httl] at h1
    | ok v =>
      simp only [httl, if_true, Except.ok.injEq] at h1
      subst h1
      exact ⟨rfl, rfl⟩
  · simp only [httl, if_false, Except.ok.injEq] at h1
    subst h1
    exact ⟨rfl, rfl⟩

/-- Any throw inside `fetchViewerCount` leaves every module variable
except the credential fields exactly as it was. -/
lemma fetchViewerCount_error_state (cfg : Config) (now : ℤ)
    (rr : Except FetchFailure (String × ℤ)) (fr : Except FetchFailure (Option ℚ))
    (s : EngineState) (e : FetchFailure) (s1 : EngineState)
    (h : fetchViewerCount cfg now rr fr s = Except.error (e, s1)) :
    s1.viewers = s.viewers ∧ s1.cachedViewerCount = s.cachedViewerCount ∧
    s1.lastFetchedTime = s.lastFetchedTime ∧ s1.cachedChatters = s.cachedChatters ∧
    s1.chatCountMap = s.chatCountMap ∧ s1.viewerHistory = s.viewerHistory ∧
    s1.chatterHistory = s.chatterHistory ∧ s1.lastStats = s.lastStats := by
  rw [fetchViewerCount_eq] at h
  by_cases htok : now > s.tokenExpiry - 60000
  · cases rr with
    | error e2 =>
      simp only [htok, if_true, Except.error.injEq, Prod.mk.injEq] at h
      obtain ⟨-, rfl⟩ := h
      exact ⟨rfl, rfl, rfl, rfl, rfl, rfl, rfl, rfl⟩
    | ok p =>
      by_cases httl : now - s.lastFetchedTime > ttlOf cfg s
      · cases fr with
        | error e2 =>
          simp only [htok, if_true, httl, Except.error.injEq, Prod.mk.injEq] at h
          obtain ⟨-, rfl⟩ := h
          exact ⟨rfl, rfl, rfl, rfl, rfl, rfl, rfl, rfl⟩
        | ok v => simp [htok, httl] at h
      · simp [htok, httl] at h
  · by_cases httl : now - s.lastFetchedTime > ttlOf cfg s
    · cases fr with
      | error e2 =>
        simp only [htok, if_false, httl, if_true, Except.error.injEq, Prod.mk.injEq] at h
        obtain ⟨-, rfl⟩ := h
        exact ⟨rfl, rfl, rfl, rfl, rfl, rfl, rfl, rfl⟩
      | ok v => simp [htok, httl] at h
    · simp [htok, httl] at h

/-- C4: the TTL is recomputed on every call as shortTTL when the
previously published viewer count exceeds viewersThreshold and longTTL
otherwise; within the TTL window the call does not depend on the
would-be fetched value and leaves the cached value and its timestamp
unchanged (publishing the cached integer), so a second call within the
recomputed TTL window returns the identical cached integer; the cache
is replaced — with the fetched value, timestamped now — exactly when
`now - lastFetchedTime > ttl`. -/
theorem C4_cache_ttl (cfg : Config) (now now2 : ℤ)
    (rr rr2 : Except FetchFailure (String × ℤ))
    (fr fr2 fr3 : Except FetchFailure (Option ℚ)) (s : EngineState) :
    ttlOf cfg s =
      (if s.viewers > cfg.viewersThreshold then cfg.cacheTTLHighViewers else cfg.cacheTTL) ∧
    (¬ now - s.lastFetchedTime > ttlOf cfg s →
      fetchViewerCount cfg now rr fr s = fetchViewerCount cfg now rr fr2 s) ∧
    (¬ now - s.lastFetchedTime > ttlOf cfg s →
      ∀ s1, fetchViewerCount cfg now rr fr s = Except.ok s1 →
        s1.cachedViewerCount = s.cachedViewerCount ∧
        s1.lastFetchedTime = s.lastFetchedTime ∧
        s1.viewers = s.cachedViewerCount ∧
        (¬ now2 - s1.lastFetchedTime > ttlOf cfg s1 →
          ∀ s2, fetchViewerCount cfg now2 rr2 fr3 s1 = Except.ok s2 →
            s2.viewers = s1.viewers ∧ s2.cachedViewerCount = s1.cachedViewerCount)) ∧
    (now - s.lastFetchedTime > ttlOf cfg s →
      ∀ v, fr = Except.ok v →
      ∀ s1, fetchViewerCount cfg now rr fr s = Except.ok s1 →
        s1.cachedViewerCount = v.getD 0 ∧ s1.lastFetchedTime = now ∧
        s1.viewers = v.getD 0) := by
  refine ⟨rfl, ?_, ?_, ?_⟩
  · intro h
    exact fetchViewerCount_indep cfg now rr fr fr2 s h
  · intro h s1 h1
    obtain ⟨hc, hl, hv⟩ := fetchViewerCount_fresh cfg now rr fr s h s1 h1
    refine ⟨hc, hl, hv, ?_⟩
    intro h2 s2 h3
    obtain ⟨hc2, hl2, hv2⟩ := fetchViewerCount_fresh cfg now2 rr2 fr3 s1 h2 s2 h3
    constructor
    · rw [hv2, hc, hv]
    · exact hc2
  · intro h v hfr s1 h1
    subst hfr
    exact fetchViewerCount_stale cfg now rr v s h s1 h1

/-- C4 witness: with a 10 ms old cache entry and a 60000 ms TTL, the
call result is the same whatever value the external API would have
returned. -/
theorem C4_cache_ttl_witness :
    fetchViewerCount cfgEx 100 (Except.ok ("t", 3600)) (Except.ok (some 42)) sEx =
      fetchViewerCount cfgEx 100 (Except.ok ("t", 3600)) (Except.ok (some 99)) sEx :=
  (C4_cache_ttl cfgEx 100 100 (Except.ok ("t", 3600)) (Except.ok ("t", 3600))
      (Except.ok (some 42)) (Except.ok (some 99)) (Except.ok (some 7)) sEx).2.1
    (by norm_num [sEx, cfgEx, ttlOf, initialEngineState])

/-- C5 counterexample: at now = 100 the cache is fresh (10 ms old
against a 60000 ms TTL), so no external count fetch happens — yet the
expired credential is refreshed: the call returns with the new token
and new expiry, so a cache-served call does not leave the credential
state unchanged as the claim asserts. -/
theorem C5_counterexample :
    ¬ (100 - sEx.lastFetchedTime > ttlOf cfgEx sEx) ∧
    (fetchViewerCount cfgEx 100 (Except.ok ("newtok", 3600)) (Except.ok none) sEx).map
        EngineState.accessToken = Except.ok "newtok" ∧
    (fetchViewerCount cfgEx 100 (Except.ok ("newtok", 3600)) (Except.ok none) sEx).map
        EngineState.tokenExpiry = Except.ok 3600100 ∧
    sEx.accessToken = "old" ∧ sEx.tokenExpiry = 0 := by
  refine ⟨by norm_num [sEx, cfgEx, ttlOf, initialEngineState], ?_, ?_, rfl, rfl⟩ <;>
    norm_num [fetchViewerCount, refreshAccessToken, ttlOf, sEx, cfgEx, initialEngineState,
      Except.map]

/-- C5 (amended): the credential expiry check — refresh exactly when
`now > expiresAt - 60s`, with `tokenExpiry = 0` covering the
never-obtained case — runs at the start of every `fetchViewerCount`
call, before and independently of the cache-freshness decision; a call
served from still-fresh cache therefore still refreshes the credential
whenever the check fires, and only calls made while the token has more
than 60 s of validity leave the credential state unchanged. -/
theorem C5_refresh_check_every_call (cfg : Config) (now : ℤ)
    (rr : Except FetchFailure (String × ℤ)) (fr : Except FetchFailure (Option ℚ))
    (s : EngineState) :
    (¬ now > s.tokenExpiry - 60000 →
      ∀ s1, fetchViewerCount cfg now rr fr s = Except.ok s1 →
        s1.accessToken = s.accessToken ∧ s1.tokenExpiry = s.tokenExpiry) ∧
    (now > s.tokenExpiry - 60000 →
      ∀ t e, rr = Except.ok (t, e) →
      ∀ s1, fetchViewerCount cfg now rr fr s = Except.ok s1 →
        s1.accessToken = t ∧ s1.tokenExpiry = now + e * 1000) := by
  constructor
  · intro htok s1 h1
    exact fetchViewerCount_credkeep cfg now rr fr s htok s1 h1
  · intro htok t e hrr s1 h1
    subst hrr
    exact fetchViewerCount_refreshes cfg now t e fr s htok s1 h1

/-- C5 witness: the cache-fresh call of the counterexample indeed ends
in the refreshed credential state. -/
theorem C5_refresh_check_witness :
    sExAfter.accessToken = "newtok" ∧ sExAfter.tokenExpiry = 100 + 3600 * 1000 :=
  (C5_refresh_check_every_call cfgEx 100 (Except.ok ("newtok", 3600)) (Except.ok none)
        sEx).2
    (by norm_num [sEx, initialEngineState]) "newtok" 3600 rfl sExAfter
    (by norm_num [fetchViewerCount, refreshAccessToken, ttlOf, sEx, sExAfter, cfgEx,
      initialEngineState])

/-- C1 (amended): a fetch-path failure (refresh failure or fetch error,
including a 429 surfaced by the transport) makes the awaited
`fetchViewerCount` reject, which aborts the whole polling cycle — no
history push, no anomaly evaluation, no classification, no snapshot
publication and no chat-accumulator reset happen for that cycle; every
module variable except the credential fields is left exactly as it was,
and the previously published snapshot remains in place.  The classifier
never sees an undefined viewer count only because it is not invoked at
all on such a cycle. -/
theorem C1_cycle_aborts (cfg : Config) (now : ℤ)
    (rr : Except FetchFailure (String × ℤ)) (fr : Except FetchFailure (Option ℚ))
    (s : EngineState) (e : FetchFailure) (s1 : EngineState)
    (h : fetchViewerCount cfg now rr fr s = Except.error (e, s1)) :
    runCycle cfg now rr fr s = (s1, some e) ∧
    s1.viewerHistory = s.viewerHistory ∧ s1.chatterHistory = s.chatterHistory ∧
    s1.lastStats = s.lastStats ∧ s1.cachedChatters = s.cachedChatters ∧
    s1.chatCountMap = s.chatCountMap ∧ s1.viewers = s.viewers ∧
    s1.cachedViewerCount = s.cachedViewerCount ∧
    s1.lastFetchedTime = s.lastFetchedTime := by
  obtain ⟨hv, hc, hl, hcc, hcm, hvh, hch, hls⟩ :=
    fetchViewerCount_error_state cfg now rr fr s e s1 h
  refine ⟨?_, hvh, hch, hls, hcc, hcm, hv, hc, hl⟩
  unfold runCycle
  rw [h]

/-- C1 witness: from the initial state, a failing Helix GET after a
successful refresh aborts the cycle in the credential-only-updated
state, with the history and the published snapshot untouched. -/
theorem C1_cycle_aborts_witness :
    runCycle cfgEx 100000 (Except.ok ("t", 3600)) (Except.error FetchFailure.fetchError)
        (initialEngineState "") = (s1Ex, some FetchFailure.fetchError) ∧
    s1Ex.viewerHistory = (initialEngineState "").viewerHistory ∧
    s1Ex.lastStats = (initialEngineState "").lastStats :=
  have happ := C1_cycle_aborts cfgEx 100000 (Except.ok ("t", 3600))
    (Except.error FetchFailure.fetchError) (initialEngineState "")
    FetchFailure.fetchError s1Ex
    (by norm_num [fetchViewerCount, refreshAccessToken, ttlOf, s1Ex, cfgEx,
      initialEngineState])
  ⟨happ.1, happ.2.1, happ.2.2.2.1⟩

/-- C1 counterexample: with the cache stale and the Helix GET failing,
the cycle is skipped outright — the rejection propagates, no history
sample is pushed and no snapshot is published — contradicting the claim
that every fetch-path failure still completes the cycle on the stale
cached value. -/
theorem C1_counterexample :
    (runCycle cfgEx 100000 (Except.ok ("t", 3600)) (Except.error FetchFailure.fetchError)
        (initialEngineState "")).2 = some FetchFailure.fetchError ∧
    (runCycle cfgEx 100000 (Except.ok ("t", 3600)) (Except.error FetchFailure.fetchError)
        (initialEngineState "")).1.viewerHistory = [] ∧
    (runCycle cfgEx 100000 (Except.ok ("t", 3600)) (Except.error FetchFailure.fetchError)
        (initialEngineState "")).1.lastStats.total_viewers = none := by
  refine ⟨?_, ?_, ?_⟩ <;>
    norm_num [runCycle, fetchViewerCount, refreshAccessToken, ttlOf, cfgEx,
      initialEngineState, initialLastStats]

end Viewbot
